import Mathlib

/-!
Shallow embedding of the authentication and authorization core of the
SP_Website backend (server/app): password hashing and verification
(core/oauth2.py), JWT issuance and decoding (core/oauth2.py), the identity
resolver and admin guard (core/oauth2.py), and the auth and user flows
(routers/auth.py, routers/users.py).

Conventions of the embedding:
- Time is an abstract Nat of minutes; a token is valid while now < exp.
- A presented token string is either a well-formed JWT (modelled as its
  decoded shape plus the key it was signed with, so that signature checking
  is equality of keys) or malformed; jwt.decode raising JWTError is an
  Except error.
- The bcrypt digest is an abstract function parameter (String to salt to
  cost to Nat); passlib raising UnknownHashError on a hash string that does
  not parse as a bcrypt hash is an Except error.
- The SQLAlchemy user model (models_db/user.py) and the session
  (database.py) are not among the sources; the store is modelled from the
  spec, section 3 and section 6: a list of user records, id assigned by the
  store, query-filter-first as first match in list order, commit of a
  mutation as an in-place update, delete as removal of the found row.
- Each flow is state passing: it returns its HTTP result together with the
  store after the call.
-/

namespace SPWebsite

/-- Role enum of schemas/user.py: USER = "user", ADMIN = "admin". -/
inductive UserRole where
  | USER
  | ADMIN
deriving DecidableEq, Repr

/-- Serialization of a role, role.value in the responses. -/
def UserRole.value : UserRole → String
  | .USER => "user"
  | .ADMIN => "admin"

/-- Model of a bcrypt hash string: either it parses as a bcrypt hash
(salt, cost, digest) or it is some other string that no scheme of the
CryptContext identifies. -/
inductive HashString where
  | bcrypt (salt cost digest : Nat)
  | malformed (s : String)
deriving DecidableEq, Repr

/-- Errors passlib may raise from CryptContext.verify: UnknownHashError
when the hash string is not identifiable as any configured scheme. -/
inductive PasslibError where
  | unknownHash
deriving DecidableEq, Repr

/-- Abstract bcrypt digest: plaintext, salt and cost to digest. The flows
are parametric in it; no claim depends on its values. -/
abbrev DigestFn := String → Nat → Nat → Nat

/-- Modelled from the spec: user record of the store (models_db/user.py is
not among the sources); fields per section 3 of the spec: id, email, name,
hashed_password, role. -/
structure UserRec where
  id : Nat
  email : String
  name : String
  hashed_password : HashString
  role : UserRole
deriving DecidableEq, Repr

/-- The user store: rows in insertion order; db.query(...).first() is the
first match in this order. -/
abbrev Store := List UserRec

/-- db.query(UserDB).filter(UserDB.email == email).first() -/
def get_user_by_email (db : Store) (email : String) : Option UserRec :=
  db.find? (fun u => u.email == email)

/-- db.query(UserDB).filter(UserDB.id == user_id).first() -/
def get_user_by_id (db : Store) (user_id : Nat) : Option UserRec :=
  db.find? (fun u => u.id == user_id)

/-- HTTPException: status code and detail message. -/
structure HTTPError where
  status : Nat
  detail : String
deriving DecidableEq, Repr

/-- Claim set of a token: payload.get "sub" and payload.get "type". -/
structure Claims where
  sub : Option String
  type : Option String
deriving DecidableEq, Repr

/-- A well-formed JWT as its decoded content: the claims, the exp claim,
and the key it was signed with (signature verification is key equality). -/
structure Token where
  claims : Claims
  exp : Nat
  key : String
deriving DecidableEq, Repr

/-- A presented token string: either malformed (jwt.decode raises
JWTError) or a well-formed JWT. -/
inductive PresentedToken where
  | malformed (s : String)
  | jwt (t : Token)
deriving DecidableEq, Repr

/-- JWTError raised by jose.jwt.decode: bad signature, elapsed expiry, or
malformed payload, indistinct here as in the except clause of the code. -/
inductive JWTError where
  | error
deriving DecidableEq, Repr

/-- jwt.decode(token, key, algorithms): checks the signature against the
key and the exp claim against the current time; returns the payload. -/
def jwtDecode (now : Nat) (key : String) (tok : PresentedToken) :
    Except JWTError Claims :=
  match tok with
  | .malformed _ => .error .error
  | .jwt t =>
    if t.key ≠ key then .error .error
    else if t.exp ≤ now then .error .error
    else .ok t.claims

/-- ACCESS_TOKEN_EXPIRE_MINUTES = 30 (core/oauth2.py). -/
def ACCESS_TOKEN_EXPIRE_MINUTES : Nat := 30

/-- create_access_token(data, expires_delta): copies the claim data, sets
exp = now + expires_delta (default ACCESS_TOKEN_EXPIRE_MINUTES), signs with
the secret key. Deltas are in minutes. -/
def create_access_token (now : Nat) (secret : String) (data : Claims)
    (expires_delta : Option Nat) : Token :=
  let expire := match expires_delta with
    | some d => now + d
    | none => now + ACCESS_TOKEN_EXPIRE_MINUTES
  { claims := data, exp := expire, key := secret }

/-- pwd_context.verify(plain_password, hashed_password): for a hash string
identified as bcrypt, recomputes the digest with the stored salt and cost
and compares; for a string no scheme identifies, passlib raises
UnknownHashError. -/
def pwd_context_verify (digest : DigestFn) (plain : String)
    (hashed : HashString) : Except PasslibError Bool :=
  match hashed with
  | .bcrypt salt cost d => .ok (digest plain salt cost == d)
  | .malformed _ => .error .unknownHash

/-- verify_password(plain_password, hashed_password) of core/oauth2.py:
returns pwd_context.verify(plain_password, hashed_password) with no
exception handling, so a passlib error propagates to the caller. -/
def verify_password (digest : DigestFn) (plain_password : String)
    (hashed_password : HashString) : Except PasslibError Bool :=
  pwd_context_verify digest plain_password hashed_password

/-- pwd_context.hash(password): a fresh bcrypt hash; the salt and cost are
inputs of the model since passlib draws a new salt per call. -/
def get_password_hash (digest : DigestFn) (salt cost : Nat)
    (password : String) : HashString :=
  .bcrypt salt cost (digest password salt cost)

/-- The single generic 401 of get_current_user. -/
def credentials_exception : HTTPError :=
  { status := 401, detail := "Could not validate credentials" }

/-- get_current_user of core/oauth2.py: decode the token (JWTError maps to
the generic 401), require the sub claim, look the user up by email,
require it to exist. -/
def get_current_user (now : Nat) (secret : String) (token : PresentedToken)
    (db : Store) : Except HTTPError UserRec :=
  match jwtDecode now secret token with
  | .error _ => .error credentials_exception
  | .ok payload =>
    match payload.sub with
    | none => .error credentials_exception
    | some email =>
      match get_user_by_email db email with
      | none => .error credentials_exception
      | some user => .ok user

/-- get_current_admin_user of core/oauth2.py: the resolved current user
must hold role ADMIN, else 403. -/
def get_current_admin_user (now : Nat) (secret : String)
    (token : PresentedToken) (db : Store) : Except HTTPError UserRec :=
  match get_current_user now secret token db with
  | .error e => .error e
  | .ok current_user =>
    if current_user.role ≠ UserRole.ADMIN then
      .error { status := 403, detail := "Admin access required" }
    else .ok current_user

/-- Request body of register and create-admin (schemas/user.py UserCreate):
email, name, password, and a role field the client may set (the pydantic
default is USER; both flows overwrite it before persisting). -/
structure UserCreate where
  email : String
  name : String
  password : String
  role : UserRole
deriving DecidableEq, Repr

/-- Request body of update (schemas/user.py UserBase): email and name. -/
structure UserBase where
  email : String
  name : String
deriving DecidableEq, Repr

/-- User summary in responses: id, email, name, role.value. -/
structure UserSummary where
  id : Nat
  email : String
  name : String
  role : String
deriving DecidableEq, Repr

/-- Response of register and login: access and refresh tokens, the bearer
token type, and the user summary. -/
structure AuthResponse where
  access_token : Token
  refresh_token : Token
  token_type : String
  user : UserSummary
deriving DecidableEq, Repr

/-- Response of refresh: a single new access token, no refresh token. -/
structure RefreshResponse where
  access_token : Token
  token_type : String
deriving DecidableEq, Repr

/-- Response of promote-to-admin: a message, plus the user summary when a
promotion was performed (absent in the already-admin branch). -/
structure PromoteResponse where
  message : String
  user : Option UserSummary
deriving DecidableEq, Repr

/-- Plain message response (logout, forgot-password, delete). -/
structure MessageResponse where
  message : String
deriving DecidableEq, Repr

/-- The 401 of the refresh endpoint. -/
def refresh_credentials_exception : HTTPError :=
  { status := 401, detail := "Invalid refresh token" }

/-- refresh_token endpoint of routers/auth.py: decode the presented token
(JWTError maps to the 401), require sub present and type == "refresh",
then issue a new access token for the same sub. No store access. -/
def refresh_token (now : Nat) (secret : String) (tok : PresentedToken) :
    Except HTTPError RefreshResponse :=
  match jwtDecode now secret tok with
  | .error _ => .error refresh_credentials_exception
  | .ok payload =>
    match payload.sub, payload.type with
    | some email, some t =>
      if t ≠ "refresh" then .error refresh_credentials_exception
      else
        .ok { access_token :=
                create_access_token now secret
                  { sub := some email, type := none }
                  (some ACCESS_TOKEN_EXPIRE_MINUTES),
              token_type := "bearer" }
    | _, _ => .error refresh_credentials_exception

/-- create_user_in_db of routers/auth.py: hash the password, build the row
with the request's email, name and role, add and commit; the store assigns
the next id. Returns the created row and the new store. -/
def create_user_in_db (digest : DigestFn) (salt cost nextId : Nat)
    (db : Store) (user_data : UserCreate) : UserRec × Store :=
  let hashed_password := get_password_hash digest salt cost user_data.password
  let db_user : UserRec :=
    { id := nextId, email := user_data.email, name := user_data.name,
      hashed_password := hashed_password, role := user_data.role }
  (db_user, db ++ [db_user])

/-- authenticate_user of routers/auth.py: look up by email; none means
False; otherwise verify the password (a passlib error propagates); a
mismatch means False. -/
def authenticate_user (digest : DigestFn) (db : Store)
    (email password : String) : Except PasslibError (Option UserRec) :=
  match get_user_by_email db email with
  | none => .ok none
  | some user =>
    match verify_password digest password user.hashed_password with
    | .error e => .error e
    | .ok b => .ok (if b then some user else none)

/-- register endpoint of routers/auth.py: 400 if the email is taken;
forces role to USER regardless of client input; creates the user; issues
an access token (30 minutes) and a refresh token (7 days, type refresh);
returns tokens plus the user summary, with the store after the call. -/
def register (now : Nat) (secret : String) (digest : DigestFn)
    (salt cost nextId : Nat) (db : Store) (user_data : UserCreate) :
    Except HTTPError AuthResponse × Store :=
  match get_user_by_email db user_data.email with
  | some _ =>
    (.error { status := 400, detail := "Email already registered" }, db)
  | none =>
    let user_data := { user_data with role := UserRole.USER }
    let (user, db) := create_user_in_db digest salt cost nextId db user_data
    let access_token := create_access_token now secret
      { sub := some user.email, type := none } (some ACCESS_TOKEN_EXPIRE_MINUTES)
    let refresh_tok := create_access_token now secret
      { sub := some user.email, type := some "refresh" } (some (7 * 24 * 60))
    (.ok { access_token := access_token, refresh_token := refresh_tok,
           token_type := "bearer",
           user := { id := user.id, email := user.email, name := user.name,
                     role := user.role.value } }, db)

/-- login endpoint of routers/auth.py: authenticate; a failure is the
generic 401; otherwise issue the access and refresh pair. Never mutates
the store. -/
def login (now : Nat) (secret : String) (digest : DigestFn) (db : Store)
    (username password : String) : Except PasslibError (Except HTTPError AuthResponse) :=
  match authenticate_user digest db username password with
  | .error e => .error e
  | .ok none =>
    .ok (.error { status := 401, detail := "Incorrect email or password" })
  | .ok (some user) =>
    let access_token := create_access_token now secret
      { sub := some user.email, type := none } (some ACCESS_TOKEN_EXPIRE_MINUTES)
    let refresh_tok := create_access_token now secret
      { sub := some user.email, type := some "refresh" } (some (7 * 24 * 60))
    .ok (.ok { access_token := access_token, refresh_token := refresh_tok,
               token_type := "bearer",
               user := { id := user.id, email := user.email, name := user.name,
                         role := user.role.value } })

/-- Commit of a role promotion: set the role of the row with this id. -/
def setRoleById (db : Store) (i : Nat) (r : UserRole) : Store :=
  db.map (fun u => if u.id == i then { u with role := r } else u)

/-- Body of the promote-to-admin endpoint of routers/auth.py, after the
admin guard resolved the caller: 404 if the target email is absent; a
message-only success if the target already holds ADMIN; otherwise set the
role to ADMIN and commit. -/
def promote_to_admin_body (db : Store) (email : String) :
    Except HTTPError PromoteResponse × Store :=
  match get_user_by_email db email with
  | none => (.error { status := 404, detail := "User not found" }, db)
  | some user =>
    if user.role = UserRole.ADMIN then
      (.ok { message := "User is already an admin", user := none }, db)
    else
      let db := setRoleById db user.id UserRole.ADMIN
      (.ok { message := "User " ++ user.email ++ " promoted to admin",
             user := some { id := user.id, email := user.email,
                            name := user.name,
                            role := UserRole.ADMIN.value } }, db)

/-- promote-to-admin endpoint including its admin guard (the current_admin
dependency): the caller's token is resolved and role-checked first. -/
def promote_to_admin (now : Nat) (secret : String) (callerTok : PresentedToken)
    (db : Store) (email : String) : Except HTTPError PromoteResponse × Store :=
  match get_current_admin_user now secret callerTok db with
  | .error e => (.error e, db)
  | .ok _ => promote_to_admin_body db email

/-- forgot-password endpoint of routers/auth.py: looks the email up but
returns the same generic message in both branches; never mutates. -/
def forgot_password (db : Store) (email : String) : MessageResponse :=
  match get_user_by_email db email with
  | none =>
    { message := "If the email exists, a password reset link has been sent" }
  | some _ =>
    { message := "If the email exists, a password reset link has been sent" }

/-- Response of create-admin: token, user summary and message. -/
structure CreateAdminResponse where
  access_token : Token
  token_type : String
  user : UserSummary
  message : String
deriving DecidableEq, Repr

/-- create-admin endpoint of routers/auth.py: 400 if any ADMIN row exists;
400 if the email is taken; otherwise force role ADMIN, create the row and
return an access token with the summary. -/
def create_admin_user (now : Nat) (secret : String) (digest : DigestFn)
    (salt cost nextId : Nat) (db : Store) (user_data : UserCreate) :
    Except HTTPError CreateAdminResponse × Store :=
  match db.find? (fun u => u.role == UserRole.ADMIN) with
  | some _ =>
    (.error { status := 400, detail := "Admin user already exists" }, db)
  | none =>
    match get_user_by_email db user_data.email with
    | some _ =>
      (.error { status := 400, detail := "Email already registered" }, db)
    | none =>
      let user_data := { user_data with role := UserRole.ADMIN }
      let (admin_user, db) := create_user_in_db digest salt cost nextId db user_data
      let access_token := create_access_token now secret
        { sub := some admin_user.email, type := none }
        (some ACCESS_TOKEN_EXPIRE_MINUTES)
      (.ok { access_token := access_token, token_type := "bearer",
             user := { id := admin_user.id, email := admin_user.email,
                       name := admin_user.name,
                       role := admin_user.role.value },
             message := "Admin user created successfully" }, db)

/-- Commit of a profile update: set email and name of the row with this id. -/
def setProfileById (db : Store) (i : Nat) (upd : UserBase) : Store :=
  db.map (fun u => if u.id == i then
    { u with email := upd.email, name := upd.name } else u)

/-- Removal of the row db.delete found: the first row with this id. -/
def removeFirstById (db : Store) (i : Nat) : Store :=
  match db with
  | [] => []
  | u :: rest => if u.id == i then rest else u :: removeFirstById rest i

/-- Body of the update endpoint of routers/users.py, after the caller was
resolved: 404 if the target id is absent; 403 unless the caller updates
their own row or holds ADMIN; 400 if the email changes to one already
present; otherwise commit the new email and name. -/
def update_user_body (db : Store) (current_user : UserRec) (user_id : Nat)
    (user_update : UserBase) : Except HTTPError UserSummary × Store :=
  match get_user_by_id db user_id with
  | none => (.error { status := 404, detail := "User not found" }, db)
  | some user =>
    if current_user.id ≠ user_id ∧ current_user.role ≠ UserRole.ADMIN then
      (.error { status := 403, detail := "You can only update your own profile" }, db)
    else if user_update.email ≠ user.email ∧
        (get_user_by_email db user_update.email).isSome then
      (.error { status := 400, detail := "Email already exists" }, db)
    else
      (.ok { id := user.id, email := user_update.email,
             name := user_update.name, role := user.role.value },
       setProfileById db user.id user_update)

/-- Body of the delete endpoint of routers/users.py, after the caller was
resolved: 404 if the target id is absent; 403 unless the caller holds
ADMIN; 400 if the caller targets their own id; otherwise delete the row
and commit. -/
def delete_user_body (db : Store) (current_user : UserRec) (user_id : Nat) :
    Except HTTPError MessageResponse × Store :=
  match get_user_by_id db user_id with
  | none => (.error { status := 404, detail := "User not found" }, db)
  | some _ =>
    if current_user.role ≠ UserRole.ADMIN then
      (.error { status := 403, detail := "Only administrators can delete users" }, db)
    else if current_user.id = user_id then
      (.error { status := 400, detail := "Cannot delete your own account" }, db)
    else
      (.ok { message := "User deleted successfully" }, removeFirstById db user_id)

/-- delete endpoint including its identity dependency: the caller's token
is resolved to a current user first. -/
def delete_user (now : Nat) (secret : String) (callerTok : PresentedToken)
    (db : Store) (user_id : Nat) : Except HTTPError MessageResponse × Store :=
  match get_current_user now secret callerTok db with
  | .error e => (.error e, db)
  | .ok current_user => delete_user_body db current_user user_id

/-- update endpoint including its identity dependency. -/
def update_user (now : Nat) (secret : String) (callerTok : PresentedToken)
    (db : Store) (user_id : Nat) (user_update : UserBase) :
    Except HTTPError UserSummary × Store :=
  match get_current_user now secret callerTok db with
  | .error e => (.error e, db)
  | .ok current_user => update_user_body db current_user user_id user_update

/-!
A small operational model over the flows, for the lifetime properties:
the system state is the store plus the next id the store will assign, and
an operation is one call to one of the mutating or reading endpoints.
-/

/-- System state: the store and the next store-assigned id. -/
structure SysState where
  db : Store
  nextId : Nat
deriving DecidableEq, Repr

/-- One endpoint call: register, login, promote-to-admin, update, delete,
or create-admin, with its request data; guarded endpoints carry the
caller's token. -/
inductive Op where
  | opRegister (salt cost : Nat) (ud : UserCreate)
  | opLogin (username password : String)
  | opPromote (callerTok : PresentedToken) (email : String)
  | opUpdate (callerTok : PresentedToken) (targetId : Nat) (upd : UserBase)
  | opDelete (callerTok : PresentedToken) (targetId : Nat)
  | opCreateAdmin (salt cost : Nat) (ud : UserCreate)
deriving Repr

/-- Environment fixed across calls: the clock, the signing secret and the
bcrypt digest. -/
structure Env where
  now : Nat
  secret : String
  digest : DigestFn

/-- Did the call fail, and how: the error of the flow's result, if any.
Login's passlib error is reported as a 500. -/
def stepResult : Except HTTPError α × Store → Option HTTPError :=
  fun r => match r.1 with
  | .error e => some e
  | .ok _ => none

/-- Apply one endpoint call to the state: the flow's resulting store, and
a fresh id consumed exactly when a row was inserted. -/
def applyOp (env : Env) (s : SysState) (op : Op) : Option HTTPError × SysState :=
  match op with
  | .opRegister salt cost ud =>
    let r := register env.now env.secret env.digest salt cost s.nextId s.db ud
    (stepResult r, { db := r.2, nextId := if (r.1).isOk then s.nextId + 1 else s.nextId })
  | .opLogin username password =>
    match login env.now env.secret env.digest s.db username password with
    | .error _ => (some { status := 500, detail := "Internal Server Error" }, s)
    | .ok (.error e) => (some e, s)
    | .ok (.ok _) => (none, s)
  | .opPromote callerTok email =>
    let r := promote_to_admin env.now env.secret callerTok s.db email
    (stepResult r, { s with db := r.2 })
  | .opUpdate callerTok targetId upd =>
    let r := update_user env.now env.secret callerTok s.db targetId upd
    (stepResult r, { s with db := r.2 })
  | .opDelete callerTok targetId =>
    let r := delete_user env.now env.secret callerTok s.db targetId
    (stepResult r, { s with db := r.2 })
  | .opCreateAdmin salt cost ud =>
    let r := create_admin_user env.now env.secret env.digest salt cost s.nextId s.db ud
    (stepResult r, { db := r.2, nextId := if (r.1).isOk then s.nextId + 1 else s.nextId })

/-- Apply a sequence of endpoint calls, left to right. -/
def applyAll (env : Env) (s : SysState) (ops : List Op) : SysState :=
  ops.foldl (fun s op => (applyOp env s op).2) s

/-- Does the store hold at least one ADMIN row — the condition the
create-admin endpoint queries. -/
def hasAdmin (db : Store) : Bool :=
  (db.find? (fun u => u.role == UserRole.ADMIN)).isSome

/-! Helper lemmas. -/

theorem hasAdmin_iff (db : Store) :
    hasAdmin db = true ↔ ∃ u ∈ db, u.role = UserRole.ADMIN := by
  unfold hasAdmin
  rw [List.find?_isSome]
  simp

theorem get_user_by_email_mem {db : Store} {email : String} {u : UserRec}
    (h : get_user_by_email db email = some u) : u ∈ db :=
  List.mem_of_find?_eq_some h

theorem get_user_by_email_eq {db : Store} {email : String} {u : UserRec}
    (h : get_user_by_email db email = some u) : u.email = email := by
  have := List.find?_some h
  simpa using this

theorem get_current_user_mem {now : Nat} {secret : String}
    {tok : PresentedToken} {db : Store} {u : UserRec}
    (h : get_current_user now secret tok db = .ok u) : u ∈ db := by
  unfold get_current_user at h
  cases hd : jwtDecode now secret tok with
  | error e => rw [hd] at h; exact absurd h (by simp)
  | ok payload =>
    rw [hd] at h
    dsimp only at h
    cases hs : payload.sub with
    | none => rw [hs] at h; exact absurd h (by simp)
    | some email =>
      rw [hs] at h
      dsimp only at h
      cases hu : get_user_by_email db email with
      | none => rw [hu] at h; exact absurd h (by simp)
      | some v =>
        rw [hu] at h
        cases h
        exact get_user_by_email_mem hu

/-! Claim theorems. -/

/-- C9: forgot-password is non-enumerating: for every store and every pair
of email inputs — in particular one registered and one not — the operation
returns the same generic success message, so the response does not depend
on whether a user record with that email exists. -/
theorem forgot_password_non_enumerating :
    (∀ (db : Store) (email : String),
      forgot_password db email =
        { message := "If the email exists, a password reset link has been sent" }) ∧
    (∀ (db₁ db₂ : Store) (email₁ email₂ : String),
      forgot_password db₁ email₁ = forgot_password db₂ email₂) := by
  constructor
  · intro db email
    unfold forgot_password
    cases get_user_by_email db email <;> rfl
  · intro db₁ db₂ email₁ email₂
    unfold forgot_password
    cases get_user_by_email db₁ email₁ <;> cases get_user_by_email db₂ email₂ <;> rfl

/-- C2: every failure of get_current_user — malformed token, tampered or
wrong-key signature, elapsed expiry, missing sub claim, or no user with the
subject email — is the single generic 401 credentials_exception: any result
is either a user or exactly that error, so the caller cannot distinguish
which failure occurred. -/
theorem get_current_user_uniform_failure :
    ∀ (now : Nat) (secret : String) (tok : PresentedToken) (db : Store),
      (∃ u, get_current_user now secret tok db = .ok u) ∨
      get_current_user now secret tok db = .error credentials_exception := by
  intro now secret tok db
  unfold get_current_user
  split
  · right; rfl
  · split
    · right; rfl
    · split
      · right; rfl
      · left; exact ⟨_, rfl⟩

/-- C1, counterexample: verify_password does not return a boolean on a
malformed hash string — it propagates passlib's UnknownHashError (the code
has no exception handling), so "returns a boolean and never raises; returns
false on any mismatch" is false at this input. -/
theorem verify_password_malformed_counterexample :
    verify_password (fun _ _ _ => 0) "pw" (.malformed "not-a-hash") =
      .error .unknownHash ∧
    ∀ b : Bool, verify_password (fun _ _ _ => 0) "pw" (.malformed "not-a-hash") ≠ .ok b := by
  refine ⟨rfl, ?_⟩
  intro b h
  cases h

/-- C1, amended: for every well-formed bcrypt hash string, verify_password
returns a boolean and returns false on any digest mismatch; for a malformed
hash string it does not return false but propagates the hasher's
UnknownHashError to the caller. -/
theorem verify_password_spec :
    ∀ (digest : DigestFn) (plain : String) (salt cost d : Nat) (s : String),
      verify_password digest plain (.bcrypt salt cost d) =
        .ok (digest plain salt cost == d) ∧
      (digest plain salt cost ≠ d →
        verify_password digest plain (.bcrypt salt cost d) = .ok false) ∧
      verify_password digest plain (.malformed s) = .error .unknownHash := by
  intro digest plain salt cost d s
  refine ⟨rfl, ?_, rfl⟩
  intro hne
  unfold verify_password pwd_context_verify
  simp [hne]

/-- Witness for C1's amended theorem at a concrete mismatching input. -/
theorem verify_password_spec_witness :
    (fun (_ : String) (_ : Nat) (_ : Nat) => 0) "a" 0 0 ≠ 1 ∧
    verify_password (fun _ _ _ => 0) "a" (.bcrypt 0 0 1) = .ok false := by
  have h := verify_password_spec (fun _ _ _ => 0) "a" 0 0 1 "x"
  exact ⟨by decide, h.2.1 (by decide)⟩

/-- C10: the identity resolver does not discriminate token kind: any token
signed with the shared secret, unexpired, whose sub is the email of an
existing user resolves to that user, whatever its type claim — in
particular a refresh token (type = "refresh") is accepted as an access
credential, because only the sub claim is checked. -/
theorem get_current_user_ignores_token_type :
    ∀ (now : Nat) (secret : String) (t : Token) (db : Store)
      (email : String) (u : UserRec),
      t.key = secret → now < t.exp → t.claims.sub = some email →
      get_user_by_email db email = some u →
      get_current_user now secret (.jwt t) db = .ok u := by
  intro now secret t db email u hkey hexp hsub hu
  unfold get_current_user jwtDecode
  dsimp only
  rw [if_neg (by simp [hkey]), if_neg (Nat.not_le.mpr hexp)]
  dsimp only
  rw [hsub]
  dsimp only
  rw [hu]

/-- Witness for C10 at a concrete refresh token (type = "refresh"). -/
theorem get_current_user_ignores_token_type_witness :
    (Token.mk { sub := some "a", type := some "refresh" } 10 "k").key = "k" ∧
    get_current_user 0 "k"
      (.jwt { claims := { sub := some "a", type := some "refresh" },
              exp := 10, key := "k" })
      [{ id := 1, email := "a", name := "A",
         hashed_password := .bcrypt 0 0 0, role := UserRole.USER }] =
      .ok { id := 1, email := "a", name := "A",
            hashed_password := .bcrypt 0 0 0, role := UserRole.USER } := by
  refine ⟨rfl, ?_⟩
  exact get_current_user_ignores_token_type 0 "k"
    { claims := { sub := some "a", type := some "refresh" }, exp := 10, key := "k" }
    [{ id := 1, email := "a", name := "A",
       hashed_password := .bcrypt 0 0 0, role := UserRole.USER }]
    "a"
    { id := 1, email := "a", name := "A",
      hashed_password := .bcrypt 0 0 0, role := UserRole.USER }
    rfl (by decide) rfl (by decide)

/-- C5: the refresh endpoint fails with its generic 401 unless the token's
signature verifies, its expiry has not elapsed, sub is present and the
type claim equals "refresh"; on success the response carries exactly one
new access token (the response type has no refresh field) whose sub equals
the presented token's sub. The endpoint takes no store argument, so the
success condition is independent of any store state. -/
theorem refresh_token_spec :
    (∀ (now : Nat) (secret s : String),
      refresh_token now secret (.malformed s) = .error refresh_credentials_exception) ∧
    (∀ (now : Nat) (secret : String) (t : Token),
      refresh_token now secret (.jwt t) =
        if t.key = secret ∧ now < t.exp ∧ t.claims.sub.isSome ∧
            t.claims.type = some "refresh" then
          .ok { access_token := create_access_token now secret
                  { sub := t.claims.sub, type := none }
                  (some ACCESS_TOKEN_EXPIRE_MINUTES),
                token_type := "bearer" }
        else .error refresh_credentials_exception) := by
  constructor
  · intro now secret s; rfl
  · intro now secret t
    by_cases h1 : t.key = secret
    · by_cases h2 : t.exp ≤ now
      · have hnlt : ¬ now < t.exp := Nat.not_lt.mpr h2
        simp [refresh_token, jwtDecode, h1, h2, hnlt]
      · have hlt : now < t.exp := Nat.lt_of_not_le h2
        rcases hs : t.claims.sub with _ | email
        · simp [refresh_token, jwtDecode, h1, h2, hs]
        · rcases ht : t.claims.type with _ | ty
          · simp [refresh_token, jwtDecode, h1, h2, hs, ht]
          · by_cases hty : ty = "refresh"
            · simp [refresh_token, jwtDecode, h1, h2, hs, ht, hty, hlt]
            · simp [refresh_token, jwtDecode, h1, h2, hs, ht, hty]
    · simp [refresh_token, jwtDecode, h1]

/-- C3: whatever role the client supplies, a register request that passes
the duplicate-email check persists a record with role USER, and the
response's user summary reports role "user"; the whole result is computed
explicitly, so ADMIN is never assigned by this flow. -/
theorem register_forces_user_role :
    ∀ (now : Nat) (secret : String) (digest : DigestFn)
      (salt cost nextId : Nat) (db : Store) (ud : UserCreate),
      get_user_by_email db ud.email = none →
      register now secret digest salt cost nextId db ud =
        (.ok { access_token := create_access_token now secret
                 { sub := some ud.email, type := none }
                 (some ACCESS_TOKEN_EXPIRE_MINUTES),
               refresh_token := create_access_token now secret
                 { sub := some ud.email, type := some "refresh" }
                 (some (7 * 24 * 60)),
               token_type := "bearer",
               user := { id := nextId, email := ud.email, name := ud.name,
                         role := "user" } },
         db ++ [{ id := nextId, email := ud.email, name := ud.name,
                  hashed_password := get_password_hash digest salt cost ud.password,
                  role := UserRole.USER }]) := by
  intro now secret digest salt cost nextId db ud h
  simp [register, create_user_in_db, h, UserRole.value]

/-- Witness for C3: a client that asks for role ADMIN still gets a USER
record and a "user" summary. -/
theorem register_forces_user_role_witness :
    get_user_by_email [] "a" = none ∧
    register 0 "k" (fun _ _ _ => 0) 0 0 1 []
        { email := "a", name := "A", password := "pw", role := UserRole.ADMIN } =
      (.ok { access_token := create_access_token 0 "k"
               { sub := some "a", type := none } (some ACCESS_TOKEN_EXPIRE_MINUTES),
             refresh_token := create_access_token 0 "k"
               { sub := some "a", type := some "refresh" } (some (7 * 24 * 60)),
             token_type := "bearer",
             user := { id := 1, email := "a", name := "A", role := "user" } },
       [{ id := 1, email := "a", name := "A",
          hashed_password := get_password_hash (fun _ _ _ => 0) 0 0 "pw",
          role := UserRole.USER }]) :=
  ⟨rfl, register_forces_user_role 0 "k" (fun _ _ _ => 0) 0 0 1 []
    { email := "a", name := "A", password := "pw", role := UserRole.ADMIN } rfl⟩

/-- C4: when a record with the requested email already exists, register
fails with the 400 Conflict and returns the store unchanged; the result is
the same for every digest function, salt, secret and clock, so no password
is hashed and no token is issued on this path. -/
theorem register_conflict_unchanged :
    ∀ (now : Nat) (secret : String) (digest : DigestFn)
      (salt cost nextId : Nat) (db : Store) (ud : UserCreate) (u : UserRec),
      get_user_by_email db ud.email = some u →
      register now secret digest salt cost nextId db ud =
        (.error { status := 400, detail := "Email already registered" }, db) := by
  intro now secret digest salt cost nextId db ud u h
  simp [register, h]

/-- Witness for C4 at a store already holding the email. -/
theorem register_conflict_unchanged_witness :
    get_user_by_email
        [{ id := 1, email := "a", name := "A",
           hashed_password := .bcrypt 0 0 0, role := UserRole.USER }] "a" =
      some { id := 1, email := "a", name := "A",
             hashed_password := .bcrypt 0 0 0, role := UserRole.USER } ∧
    register 0 "k" (fun _ _ _ => 0) 0 0 2
        [{ id := 1, email := "a", name := "A",
           hashed_password := .bcrypt 0 0 0, role := UserRole.USER }]
        { email := "a", name := "B", password := "pw", role := UserRole.USER } =
      (.error { status := 400, detail := "Email already registered" },
       [{ id := 1, email := "a", name := "A",
          hashed_password := .bcrypt 0 0 0, role := UserRole.USER }]) :=
  ⟨by decide, register_conflict_unchanged 0 "k" (fun _ _ _ => 0) 0 0 2
    [{ id := 1, email := "a", name := "A",
       hashed_password := .bcrypt 0 0 0, role := UserRole.USER }]
    { email := "a", name := "B", password := "pw", role := UserRole.USER }
    { id := 1, email := "a", name := "A",
      hashed_password := .bcrypt 0 0 0, role := UserRole.USER }
    (by decide)⟩

theorem get_user_by_email_setRoleById (db : Store) (i : Nat) (r : UserRole)
    (email : String) :
    get_user_by_email (setRoleById db i r) email =
      (get_user_by_email db email).map
        (fun u => if u.id == i then { u with role := r } else u) := by
  unfold get_user_by_email setRoleById
  have hp : ((fun u : UserRec => u.email == email) ∘ fun u =>
      if u.id == i then { u with role := r } else u) =
      (fun u : UserRec => u.email == email) := by
    funext u
    by_cases h : u.id = i <;> simp [h]
  rw [List.find?_map, hp]

/-- C6: promote-to-admin is idempotent. An authorized call whose target
already holds ADMIN returns the success message and leaves the store
exactly as it was; and for every store, token and email whatsoever,
applying the endpoint twice leaves the same store as applying it once. -/
theorem promote_to_admin_idempotent :
    ∀ (now : Nat) (secret : String) (tok : PresentedToken) (db : Store)
      (email : String),
      (∀ caller u, get_current_admin_user now secret tok db = .ok caller →
        get_user_by_email db email = some u → u.role = UserRole.ADMIN →
        promote_to_admin now secret tok db email =
          (.ok { message := "User is already an admin", user := none }, db)) ∧
      (promote_to_admin now secret tok
          (promote_to_admin now secret tok db email).2 email).2 =
        (promote_to_admin now secret tok db email).2 := by
  intro now secret tok db email
  constructor
  · intro caller u hg hu hrole
    simp [promote_to_admin, promote_to_admin_body, hg, hu, hrole]
  · cases hg : get_current_admin_user now secret tok db with
    | error e => simp [promote_to_admin, hg]
    | ok caller =>
      cases hL : get_user_by_email db email with
      | none => simp [promote_to_admin, promote_to_admin_body, hg, hL]
      | some u =>
        by_cases hrole : u.role = UserRole.ADMIN
        · simp [promote_to_admin, promote_to_admin_body, hg, hL, hrole]
        · have hL' : get_user_by_email (setRoleById db u.id UserRole.ADMIN) email =
              some { u with role := UserRole.ADMIN } := by
            rw [get_user_by_email_setRoleById, hL]
            simp
          cases hg' : get_current_admin_user now secret tok
              (setRoleById db u.id UserRole.ADMIN) with
          | error e =>
            simp [promote_to_admin, promote_to_admin_body, hg, hg', hL, hrole]
          | ok c =>
            simp [promote_to_admin, promote_to_admin_body, hg, hg', hL, hL', hrole]

/-- Witness for C6: an admin promoting an already-admin target gets the
no-op success and an unchanged store. -/
theorem promote_to_admin_idempotent_witness :
    get_current_admin_user 0 "k"
        (.jwt { claims := { sub := some "a", type := none }, exp := 10, key := "k" })
        [{ id := 1, email := "a", name := "A",
           hashed_password := .bcrypt 0 0 0, role := UserRole.ADMIN }] =
      .ok { id := 1, email := "a", name := "A",
            hashed_password := .bcrypt 0 0 0, role := UserRole.ADMIN } ∧
    promote_to_admin 0 "k"
        (.jwt { claims := { sub := some "a", type := none }, exp := 10, key := "k" })
        [{ id := 1, email := "a", name := "A",
           hashed_password := .bcrypt 0 0 0, role := UserRole.ADMIN }] "a" =
      (.ok { message := "User is already an admin", user := none },
       [{ id := 1, email := "a", name := "A",
          hashed_password := .bcrypt 0 0 0, role := UserRole.ADMIN }]) :=
  ⟨rfl,
   (promote_to_admin_idempotent 0 "k"
      (.jwt { claims := { sub := some "a", type := none }, exp := 10, key := "k" })
      [{ id := 1, email := "a", name := "A",
         hashed_password := .bcrypt 0 0 0, role := UserRole.ADMIN }] "a").1
     { id := 1, email := "a", name := "A",
       hashed_password := .bcrypt 0 0 0, role := UserRole.ADMIN }
     { id := 1, email := "a", name := "A",
       hashed_password := .bcrypt 0 0 0, role := UserRole.ADMIN }
     rfl rfl rfl⟩

/-- C8, counterexample: an ADMIN deleting their own id fails with status
400 ("Cannot delete your own account"), not with the Forbidden 403 the
claim states for every authenticated user. -/
theorem delete_self_admin_counterexample :
    (delete_user 0 "k"
        (.jwt { claims := { sub := some "a", type := none }, exp := 10, key := "k" })
        [{ id := 1, email := "a", name := "A",
           hashed_password := .bcrypt 0 0 0, role := UserRole.ADMIN }] 1).1 =
      .error { status := 400, detail := "Cannot delete your own account" } ∧
    (400 : Nat) ≠ 403 :=
  ⟨rfl, by decide⟩

/-- C8, amended: self-deletion always fails with the store unchanged, but
the error class depends on the caller's role: a USER caller hits the
admin-only check first and gets 403, while an ADMIN caller reaches the
self-deletion check and gets 400. -/
theorem delete_self_always_fails :
    ∀ (now : Nat) (secret : String) (tok : PresentedToken) (db : Store)
      (u : UserRec),
      get_current_user now secret tok db = .ok u →
      (delete_user now secret tok db u.id).2 = db ∧
      ((u.role = UserRole.USER ∧ (delete_user now secret tok db u.id).1 =
          .error { status := 403, detail := "Only administrators can delete users" }) ∨
       (u.role = UserRole.ADMIN ∧ (delete_user now secret tok db u.id).1 =
          .error { status := 400, detail := "Cannot delete your own account" })) := by
  intro now secret tok db u h
  have hmem : u ∈ db := get_current_user_mem h
  have hsome : (get_user_by_id db u.id).isSome := by
    unfold get_user_by_id
    exact List.find?_isSome.mpr ⟨u, hmem, by simp⟩
  obtain ⟨t, ht⟩ := Option.isSome_iff_exists.mp hsome
  cases hrole : u.role with
  | USER =>
    refine ⟨?_, Or.inl ⟨rfl, ?_⟩⟩ <;>
      simp [delete_user, delete_user_body, h, ht, hrole]
  | ADMIN =>
    refine ⟨?_, Or.inr ⟨rfl, ?_⟩⟩ <;>
      simp [delete_user, delete_user_body, h, ht, hrole]

/-- Witness for C8's amended theorem: a USER deleting their own id gets
the 403 of the admin-only check and an unchanged store. -/
theorem delete_self_always_fails_witness :
    get_current_user 0 "k"
        (.jwt { claims := { sub := some "a", type := none }, exp := 10, key := "k" })
        [{ id := 1, email := "a", name := "A",
           hashed_password := .bcrypt 0 0 0, role := UserRole.USER }] =
      .ok { id := 1, email := "a", name := "A",
            hashed_password := .bcrypt 0 0 0, role := UserRole.USER } ∧
    ((delete_user 0 "k"
        (.jwt { claims := { sub := some "a", type := none }, exp := 10, key := "k" })
        [{ id := 1, email := "a", name := "A",
           hashed_password := .bcrypt 0 0 0, role := UserRole.USER }] 1).2 =
      [{ id := 1, email := "a", name := "A",
         hashed_password := .bcrypt 0 0 0, role := UserRole.USER }] ∧
     (UserRole.USER = UserRole.USER ∧ (delete_user 0 "k"
        (.jwt { claims := { sub := some "a", type := none }, exp := 10, key := "k" })
        [{ id := 1, email := "a", name := "A",
           hashed_password := .bcrypt 0 0 0, role := UserRole.USER }] 1).1 =
        .error { status := 403, detail := "Only administrators can delete users" } ∨
      (UserRole.USER = UserRole.ADMIN ∧ (delete_user 0 "k"
        (.jwt { claims := { sub := some "a", type := none }, exp := 10, key := "k" })
        [{ id := 1, email := "a", name := "A",
           hashed_password := .bcrypt 0 0 0, role := UserRole.USER }] 1).1 =
        .error { status := 400, detail := "Cannot delete your own account" }))) :=
  ⟨rfl, delete_self_always_fails 0 "k"
    (.jwt { claims := { sub := some "a", type := none }, exp := 10, key := "k" })
    [{ id := 1, email := "a", name := "A",
       hashed_password := .bcrypt 0 0 0, role := UserRole.USER }]
    { id := 1, email := "a", name := "A",
      hashed_password := .bcrypt 0 0 0, role := UserRole.USER }
    rfl⟩

theorem hasAdmin_append (db l : Store) (h : hasAdmin db = true) :
    hasAdmin (db ++ l) = true := by
  rw [hasAdmin_iff] at h ⊢
  obtain ⟨u, hu, hr⟩ := h
  exact ⟨u, List.mem_append_left _ hu, hr⟩

theorem hasAdmin_setRoleById (db : Store) (i : Nat)
    (h : hasAdmin db = true) :
    hasAdmin (setRoleById db i UserRole.ADMIN) = true := by
  rw [hasAdmin_iff] at h ⊢
  obtain ⟨u, hu, hr⟩ := h
  refine ⟨if u.id == i then { u with role := UserRole.ADMIN } else u,
    List.mem_map_of_mem _ hu, ?_⟩
  by_cases hc : u.id = i <;> simp [hc, hr]

theorem hasAdmin_setProfileById (db : Store) (i : Nat) (upd : UserBase)
    (h : hasAdmin db = true) :
    hasAdmin (setProfileById db i upd) = true := by
  rw [hasAdmin_iff] at h ⊢
  obtain ⟨u, hu, hr⟩ := h
  refine ⟨if u.id == i then { u with email := upd.email, name := upd.name } else u,
    List.mem_map_of_mem _ hu, ?_⟩
  by_cases hc : u.id = i <;> simp [hc, hr]

theorem mem_removeFirstById {u : UserRec} (db : Store) (i : Nat)
    (hmem : u ∈ db) (hne : ¬ u.id = i) : u ∈ removeFirstById db i := by
  induction db with
  | nil => cases hmem
  | cons v rest ih =>
    unfold removeFirstById
    by_cases hv : v.id == i
    · rw [if_pos hv]
      rcases List.mem_cons.mp hmem with h1 | h2
      · exact absurd (h1 ▸ (by simpa using hv)) hne
      · exact h2
    · rw [if_neg hv]
      rcases List.mem_cons.mp hmem with h1 | h2
      · exact h1 ▸ List.mem_cons_self _ _
      · exact List.mem_cons_of_mem _ (ih h2)

/-- The admin-count invariant: no endpoint call ever brings an ADMIN-holding
store back to zero ADMIN rows — register and create-admin only add rows,
promote only raises roles, update preserves roles, login reads only, and
delete requires an ADMIN caller distinct (by id) from the target, so the
caller's ADMIN row survives the deletion. -/
theorem hasAdmin_step (env : Env) (s : SysState) (op : Op)
    (h : hasAdmin s.db = true) :
    hasAdmin ((applyOp env s op).2).db = true := by
  cases op with
  | opRegister salt cost ud =>
    cases hm : get_user_by_email s.db ud.email with
    | some u => simpa [applyOp, register, hm] using h
    | none =>
      simp only [applyOp, register, create_user_in_db, hm]
      exact hasAdmin_append _ _ h
  | opLogin username password =>
    cases hl : login env.now env.secret env.digest s.db username password with
    | error e => simpa [applyOp, hl] using h
    | ok r =>
      cases r with
      | error e => simpa [applyOp, hl] using h
      | ok resp => simpa [applyOp, hl] using h
  | opPromote tok email =>
    cases hg : get_current_admin_user env.now env.secret tok s.db with
    | error e => simpa [applyOp, promote_to_admin, hg] using h
    | ok caller =>
      cases hL : get_user_by_email s.db email with
      | none =>
        simpa [applyOp, promote_to_admin, promote_to_admin_body, hg, hL] using h
      | some u =>
        by_cases hrole : u.role = UserRole.ADMIN
        · simpa [applyOp, promote_to_admin, promote_to_admin_body, hg, hL, hrole]
            using h
        · simp only [applyOp, promote_to_admin, promote_to_admin_body, hg, hL,
            if_neg hrole]
          exact hasAdmin_setRoleById _ _ h
  | opUpdate tok targetId upd =>
    cases hg : get_current_user env.now env.secret tok s.db with
    | error e => simpa [applyOp, update_user, hg] using h
    | ok c =>
      cases hL : get_user_by_id s.db targetId with
      | none => simpa [applyOp, update_user, update_user_body, hg, hL] using h
      | some t =>
        simp only [applyOp, update_user, update_user_body, hg, hL]
        split_ifs <;>
          first
          | simpa using h
          | (exact hasAdmin_setProfileById _ _ _ h)
  | opDelete tok targetId =>
    cases hg : get_current_user env.now env.secret tok s.db with
    | error e => simpa [applyOp, delete_user, hg] using h
    | ok c =>
      cases hL : get_user_by_id s.db targetId with
      | none => simpa [applyOp, delete_user, delete_user_body, hg, hL] using h
      | some t =>
        by_cases hrole : c.role ≠ UserRole.ADMIN
        · simpa [applyOp, delete_user, delete_user_body, hg, hL, hrole] using h
        · by_cases hid : c.id = targetId
          · simpa [applyOp, delete_user, delete_user_body, hg, hL, hrole, hid]
              using h
          · simp only [applyOp, delete_user, delete_user_body, hg, hL,
              if_neg hrole, if_neg hid]
            have hcm : c ∈ s.db := get_current_user_mem hg
            have hcadm : c.role = UserRole.ADMIN := not_not.mp hrole
            rw [hasAdmin_iff]
            exact ⟨c, mem_removeFirstById _ _ hcm hid, hcadm⟩
  | opCreateAdmin salt cost ud =>
    obtain ⟨a, ha⟩ : ∃ a, s.db.find? (fun u => u.role == UserRole.ADMIN) = some a := by
      have h' := h
      unfold hasAdmin at h'
      exact Option.isSome_iff_exists.mp h'
    simpa [applyOp, create_admin_user, ha] using h

theorem hasAdmin_applyAll (env : Env) (ops : List Op) :
    ∀ s : SysState, hasAdmin s.db = true →
      hasAdmin (applyAll env s ops).db = true := by
  induction ops with
  | nil => intro s h; exact h
  | cons op rest ih =>
    intro s h
    exact ih _ (hasAdmin_step env s op h)

theorem createAdmin_conflict (env : Env) (s : SysState) (salt cost : Nat)
    (ud : UserCreate) (h : hasAdmin s.db = true) :
    (applyOp env s (.opCreateAdmin salt cost ud)).1 =
      some { status := 400, detail := "Admin user already exists" } := by
  obtain ⟨a, ha⟩ : ∃ a, s.db.find? (fun u => u.role == UserRole.ADMIN) = some a := by
    have h' := h
    unfold hasAdmin at h'
    exact Option.isSome_iff_exists.mp h'
  simp [applyOp, create_admin_user, stepResult, ha]

/-- C7: bootstrap-admin succeeds at most once per store lifetime. From a
store with no ADMIN row and a free email, create-admin succeeds; and once
the store holds an ADMIN row, it still does after every sequence of
register, login, promote, update, delete and create-admin calls — so every
later create-admin call, with any email, fails with the 400 Conflict. -/
theorem bootstrap_admin_once :
    ∀ (env : Env) (s₁ s₂ : SysState) (ops : List Op)
      (salt cost salt' cost' : Nat) (ud ud' : UserCreate),
      (hasAdmin s₁.db = false → get_user_by_email s₁.db ud.email = none →
        (applyOp env s₁ (.opCreateAdmin salt cost ud)).1 = none) ∧
      (hasAdmin s₂.db = true →
        hasAdmin (applyAll env s₂ ops).db = true ∧
        (applyOp env (applyAll env s₂ ops)
            (.opCreateAdmin salt' cost' ud')).1 =
          some { status := 400, detail := "Admin user already exists" }) := by
  intro env s₁ s₂ ops salt cost salt' cost' ud ud'
  constructor
  · intro h0 hfree
    have hnone : s₁.db.find? (fun u => u.role == UserRole.ADMIN) = none := by
      cases hf : s₁.db.find? (fun u => u.role == UserRole.ADMIN) with
      | none => rfl
      | some a =>
        exfalso
        have : hasAdmin s₁.db = true := by simp [hasAdmin, hf]
        rw [this] at h0
        cases h0
    simp [applyOp, create_admin_user, create_user_in_db, stepResult, hnone, hfree]
  · intro h1
    exact ⟨hasAdmin_applyAll env ops s₂ h1,
      createAdmin_conflict env _ salt' cost' ud' (hasAdmin_applyAll env ops s₂ h1)⟩

/-- Witness for C7: on the empty store the first create-admin succeeds;
from a store holding one admin, after a register call, create-admin with a
fresh email still fails with the Conflict. -/
theorem bootstrap_admin_once_witness :
    hasAdmin ([] : Store) = false ∧
    get_user_by_email [] "a" = none ∧
    hasAdmin [{ id := 1, email := "a", name := "A",
                hashed_password := .bcrypt 0 0 0, role := UserRole.ADMIN }] = true ∧
    (applyOp { now := 0, secret := "k", digest := fun _ _ _ => 0 }
        { db := [], nextId := 1 }
        (.opCreateAdmin 0 0 { email := "a", name := "A", password := "pw",
                              role := UserRole.USER })).1 = none ∧
    hasAdmin (applyAll { now := 0, secret := "k", digest := fun _ _ _ => 0 }
        { db := [{ id := 1, email := "a", name := "A",
                   hashed_password := .bcrypt 0 0 0, role := UserRole.ADMIN }],
          nextId := 2 }
        [.opRegister 0 0 { email := "b", name := "B", password := "pw",
                           role := UserRole.USER }]).db = true ∧
    (applyOp { now := 0, secret := "k", digest := fun _ _ _ => 0 }
        (applyAll { now := 0, secret := "k", digest := fun _ _ _ => 0 }
          { db := [{ id := 1, email := "a", name := "A",
                     hashed_password := .bcrypt 0 0 0, role := UserRole.ADMIN }],
            nextId := 2 }
          [.opRegister 0 0 { email := "b", name := "B", password := "pw",
                             role := UserRole.USER }])
        (.opCreateAdmin 0 0 { email := "c", name := "C", password := "pw",
                              role := UserRole.USER })).1 =
      some { status := 400, detail := "Admin user already exists" } := by
  have T := bootstrap_admin_once
    { now := 0, secret := "k", digest := fun _ _ _ => 0 }
    { db := [], nextId := 1 }
    { db := [{ id := 1, email := "a", name := "A",
               hashed_password := .bcrypt 0 0 0, role := UserRole.ADMIN }],
      nextId := 2 }
    [.opRegister 0 0 { email := "b", name := "B", password := "pw",
                       role := UserRole.USER }]
    0 0 0 0
    { email := "a", name := "A", password := "pw", role := UserRole.USER }
    { email := "c", name := "C", password := "pw", role := UserRole.USER }
  refine ⟨by decide, rfl, by decide, T.1 (by decide) rfl,
    (T.2 (by decide)).1, (T.2 (by decide)).2⟩

end SPWebsite
